import Mathlib

/-!
Shallow embedding of `planets.py`, a minimal gravitational N-body simulator:
one fixed central `Sun`, a list of `Planet`s advanced through discrete time
steps by `SolarSystem.move_planets`, and a `Simulation` driver that runs the
integration loop and reports state each tick.

Numbers are modelled over `ℝ` (exact real arithmetic standing for Python
floats).  Python's mutate-then-raise exception semantics is modelled by
`PyResult`: an exception carries the name of the Python exception class and
the state of the object at the moment the exception was raised, since by then
earlier in-place mutations have already happened.
-/

/-- Result of running a piece of Python code that mutates state of type `α`:
either normal completion with the final state, or an uncaught exception
(identified by its Python class name) together with the state at raise time. -/
inductive PyResult (α : Type) where
  | ok : α → PyResult α
  | exn : String → α → PyResult α

/-- The state held at the end of the computation, whether or not an exception
was raised (Python mutations are not rolled back by an exception). -/
def PyResult.state {α : Type} : PyResult α → α
  | .ok a => a
  | .exn _ a => a

/-- `True` exactly when the computation completed without an exception. -/
def PyResult.isOk {α : Type} : PyResult α → Prop
  | .ok _ => True
  | .exn _ _ => False

/-- `class Universe`: universal constants. `G` is the gravitational constant. -/
def Universe.G : ℝ := 6.67430e-11

/-- `class Sun`, lines 10-44 of `planets.py`. Fields keep the Python
attribute names (leading underscore dropped where needed). -/
structure Sun where
  name : String
  mass : ℝ
  radius : ℝ
  temperature : ℝ
  x_pos : ℝ
  y_pos : ℝ

/-- `Sun.__init__`: stores the attributes and places the sun at (0, 0). -/
def Sun.init (name : String) (mass radius temperature : ℝ) : Sun :=
  { name := name, mass := mass, radius := radius, temperature := temperature
    x_pos := 0.0, y_pos := 0.0 }

/-- `Sun.get_mass` -/
def Sun.get_mass (s : Sun) : ℝ := s.mass

/-- `Sun.get_x_pos` -/
def Sun.get_x_pos (s : Sun) : ℝ := s.x_pos

/-- `Sun.get_y_pos` -/
def Sun.get_y_pos (s : Sun) : ℝ := s.y_pos

/-- `Sun.set_position` -/
def Sun.set_position (s : Sun) (x y : ℝ) : Sun :=
  { s with x_pos := x, y_pos := y }

/-- `class Planet`, lines 47-110 of `planets.py`. -/
structure Planet where
  name : String
  mass : ℝ
  radius : ℝ
  color : String
  x_pos : ℝ
  y_pos : ℝ
  x_vel : ℝ
  y_vel : ℝ

/-- `Planet.__init__`: stores the attributes; the initial velocity is purely
along the Y axis (`self._x_vel = 0`, `self._y_vel = initial_velocity`). -/
def Planet.init (name : String) (initial_velocity mass radius x_pos y_pos : ℝ)
    (color : String) : Planet :=
  { name := name, mass := mass, radius := radius, color := color
    x_pos := x_pos, y_pos := y_pos, x_vel := 0, y_vel := initial_velocity }

/-- `Planet.get_mass` -/
def Planet.get_mass (p : Planet) : ℝ := p.mass

/-- `Planet.get_x_pos` -/
def Planet.get_x_pos (p : Planet) : ℝ := p.x_pos

/-- `Planet.get_y_pos` -/
def Planet.get_y_pos (p : Planet) : ℝ := p.y_pos

/-- `Planet.get_x_vel` -/
def Planet.get_x_vel (p : Planet) : ℝ := p.x_vel

/-- `Planet.get_y_vel` -/
def Planet.get_y_vel (p : Planet) : ℝ := p.y_vel

/-- `Planet.set_x_vel` -/
def Planet.set_x_vel (p : Planet) (velocity : ℝ) : Planet :=
  { p with x_vel := velocity }

/-- `Planet.set_y_vel` -/
def Planet.set_y_vel (p : Planet) (velocity : ℝ) : Planet :=
  { p with y_vel := velocity }

/-- `Planet.move_to` -/
def Planet.move_to (p : Planet) (x y : ℝ) : Planet :=
  { p with x_pos := x, y_pos := y }

/-- `Planet.distance_from_sun`: `sqrt(dx**2 + dy**2)` with
`dx = self._x_pos - sun.get_x_pos()`, `dy = self._y_pos - sun.get_y_pos()`. -/
noncomputable def Planet.distance_from_sun (p : Planet) (sun : Sun) : ℝ :=
  Real.sqrt ((p.x_pos - sun.get_x_pos) ^ 2 + (p.y_pos - sun.get_y_pos) ^ 2)

/-- The time step local to `move_planets`: `dt = 0.001`. -/
def dt : ℝ := 0.001

/-- The body of the `for planet in self.planets` loop in
`SolarSystem.move_planets` (lines 131-148), applied to one planet:
move the planet by `dt * velocity`, recompute the distance to the sun from
the NEW position, then update the velocity by `dt * acceleration` with
`acc = G * M * dist / new_distance**3`.  If `self.the_sun` is `None` the
attribute access on line 138 raises `AttributeError`; if the division on
line 143 has a zero denominator Python raises `ZeroDivisionError`.  In both
cases the position update has already happened. -/
noncomputable def movePlanetStep (the_sun : Option Sun) (p : Planet) : PyResult Planet :=
  let p1 := p.move_to (p.get_x_pos + dt * p.get_x_vel) (p.get_y_pos + dt * p.get_y_vel)
  match the_sun with
  | none => .exn "AttributeError" p1
  | some sun =>
    let dist_x := sun.get_x_pos - p1.get_x_pos
    let dist_y := sun.get_y_pos - p1.get_y_pos
    let new_distance := Real.sqrt (dist_x ^ 2 + dist_y ^ 2)
    if new_distance ^ 3 = 0 then .exn "ZeroDivisionError" p1
    else
      let acc_x := Universe.G * sun.get_mass * dist_x / new_distance ^ 3
      let acc_y := Universe.G * sun.get_mass * dist_y / new_distance ^ 3
      let p2 := p1.set_x_vel (p1.get_x_vel + dt * acc_x)
      .ok (p2.set_y_vel (p2.get_y_vel + dt * acc_y))

/-- The `for` loop of `move_planets` over the whole (in-place mutated) planet
list: planets are processed in collection order; an exception aborts the loop,
leaving the planets already processed updated and the rest untouched. -/
noncomputable def movePlanetsList (the_sun : Option Sun) : List Planet → PyResult (List Planet)
  | [] => .ok []
  | p :: rest =>
    match movePlanetStep the_sun p with
    | .ok p1 =>
      match movePlanetsList the_sun rest with
      | .ok rest1 => .ok (p1 :: rest1)
      | .exn e rest1 => .exn e (p1 :: rest1)
    | .exn e p1 => .exn e (p1 :: rest)

/-- `class SolarSystem`: one optional sun (`self.the_sun = None` initially)
and an ordered list of planets. -/
structure SolarSystem where
  the_sun : Option Sun
  planets : List Planet

/-- `SolarSystem.__init__` -/
def SolarSystem.init : SolarSystem := { the_sun := none, planets := [] }

/-- `SolarSystem.add_sun` -/
def SolarSystem.add_sun (s : SolarSystem) (sun : Sun) : SolarSystem :=
  { s with the_sun := some sun }

/-- `SolarSystem.add_planet`: appends to the ordered collection. -/
def SolarSystem.add_planet (s : SolarSystem) (planet : Planet) : SolarSystem :=
  { s with planets := s.planets ++ [planet] }

/-- `SolarSystem.move_planets` (lines 127-148). -/
noncomputable def SolarSystem.move_planets (s : SolarSystem) : PyResult SolarSystem :=
  match movePlanetsList s.the_sun s.planets with
  | .ok l => .ok { s with planets := l }
  | .exn e l => .exn e { s with planets := l }

/-- The Euclidean distance between the sun and a planet's position AFTER the
position update of the current tick — the quantity `new_distance` computed on
line 140 of `move_planets`. -/
noncomputable def newDistance (sun : Sun) (p : Planet) : ℝ :=
  Real.sqrt ((sun.get_x_pos - (p.get_x_pos + dt * p.get_x_vel)) ^ 2 +
    (sun.get_y_pos - (p.get_y_pos + dt * p.get_y_vel)) ^ 2)

/-- The f-string printed for one planet on lines 173-174 of `planets.py`:
`<name>: x=<x:.2f>, y=<y:.2f>, distance=<distance:.2f>`.  The rendering of a
real number to two decimal places is a property of the output sink, not of
the physics, and is abstracted as the parameter `fmt`. -/
noncomputable def Planet.reportLine (fmt : ℝ → String) (p : Planet) (sun : Sun) : String :=
  p.name ++ ": x=" ++ fmt p.get_x_pos ++ ", y=" ++ fmt p.get_y_pos ++
    ", distance=" ++ fmt (p.distance_from_sun sun)

/-- The inner `for planet in self.planets` print loop of `Simulation.run`:
one line per planet in collection order.  If `the_sun` is `None`,
`distance_from_sun` dereferences it and the first planet raises
`AttributeError` (reachable only with a nonempty planet list). -/
noncomputable def printLines (fmt : ℝ → String) (s : SolarSystem) : PyResult (List String) :=
  match s.the_sun with
  | some sun => .ok (s.planets.map (fun p => p.reportLine fmt sun))
  | none => match s.planets with
    | [] => .ok []
    | _ :: _ => .exn "AttributeError" []

/-- `class Simulation`: a solar system, the (physics-unused) bounds, and the
iteration count. -/
structure Simulation where
  solar_system : SolarSystem
  width : ℝ
  height : ℝ
  iterations : ℕ

/-- `Simulation.__init__` -/
def Simulation.init (solar_system : SolarSystem) (width height : ℝ)
    (iterations : ℕ) : Simulation :=
  { solar_system := solar_system, width := width, height := height
    iterations := iterations }

/-- The `for _ in range(self.iterations)` loop of `Simulation.run`, started
from an arbitrary state: each iteration calls `move_planets` once and then
prints one line per planet.  An exception aborts the remaining iterations;
the result collects the lines printed before the abort. -/
noncomputable def Simulation.runFrom (fmt : ℝ → String) :
    ℕ → SolarSystem → PyResult (SolarSystem × List String)
  | 0, s => .ok (s, [])
  | Nat.succ n, s =>
    match s.move_planets with
    | .exn e s1 => .exn e (s1, [])
    | .ok s1 =>
      match printLines fmt s1 with
      | .exn e _ => .exn e (s1, [])
      | .ok lines =>
        match Simulation.runFrom fmt n s1 with
        | .ok (sf, rest) => .ok (sf, lines ++ rest)
        | .exn e (sf, rest) => .exn e (sf, lines ++ rest)

/-- `Simulation.run` (lines 166-174): run the loop for `iterations` ticks
from the owned solar system. -/
noncomputable def Simulation.run (sim : Simulation) (fmt : ℝ → String) :
    PyResult (SolarSystem × List String) :=
  Simulation.runFrom fmt sim.iterations sim.solar_system

/-- Modelled from the spec: the sequence of post-tick system states produced
by invoking `advance()` (`move_planets`) exactly `n` times in a row, `none`
if some tick raises.  `specTickStates n s = some sts` says the `n` calls all
succeed and `sts` lists the state after each of the `n` ticks in order. -/
noncomputable def specTickStates : ℕ → SolarSystem → Option (List SolarSystem)
  | 0, _ => some []
  | Nat.succ n, s =>
    match s.move_planets with
    | .ok s1 => (specTickStates n s1).map (fun l => s1 :: l)
    | .exn _ _ => none

/-- Modelled from the spec: the block of report lines for one tick — one line
per planet in collection order, in the format
`<name>: x=<x:.2f>, y=<y:.2f>, distance=<distance:.2f>`, where `distance` is
the planet's current Euclidean distance from the primary body and the
two-decimal rendering is abstracted as `fmt`. -/
noncomputable def specTickReport (fmt : ℝ → String) (s : SolarSystem) : List String :=
  match s.the_sun with
  | some sun => s.planets.map (fun p =>
      p.name ++ ": x=" ++ fmt p.get_x_pos ++ ", y=" ++ fmt p.get_y_pos ++
        ", distance=" ++ fmt (Real.sqrt ((p.get_x_pos - sun.get_x_pos) ^ 2 +
          (p.get_y_pos - sun.get_y_pos) ^ 2)))
  | none => []

/-- Planets agreeing in position and velocity (they may still differ in
name, mass, radius and color). -/
def samePV (p q : Planet) : Prop :=
  p.get_x_pos = q.get_x_pos ∧ p.get_y_pos = q.get_y_pos ∧
  p.get_x_vel = q.get_x_vel ∧ p.get_y_vel = q.get_y_vel

/-- `samePV` lifted to step results: the same outcome kind (and, on an
exception, the same exception class) with states agreeing in position and
velocity. -/
def samePVR : PyResult Planet → PyResult Planet → Prop
  | .ok p, .ok q => samePV p q
  | .exn e p, .exn f q => e = f ∧ samePV p q
  | _, _ => False

/-- The trajectory of one planet across `n` consecutive ticks: `n`
applications of the `move_planets` loop body (each planet is updated
independently of the others, so this is its evolution under `n` calls of
`move_planets`), stopping at the first exception. -/
noncomputable def planetTicksN (the_sun : Option Sun) : ℕ → Planet → PyResult Planet
  | 0, p => .ok p
  | Nat.succ n, p =>
    match movePlanetStep the_sun p with
    | .ok p1 => planetTicksN the_sun n p1
    | .exn e p1 => .exn e p1

/-- On the success path, `movePlanetStep` returns exactly the planet with the
position advanced by `dt * velocity` and the velocity advanced by
`dt * G * M * dist / new_distance^3` computed from the new position. -/
theorem movePlanetStep_eq_ok (sun : Sun) (p : Planet) (h : newDistance sun p ≠ 0) :
    movePlanetStep (some sun) p = .ok
      { p with
        x_pos := p.get_x_pos + dt * p.get_x_vel
        y_pos := p.get_y_pos + dt * p.get_y_vel
        x_vel := p.get_x_vel + dt * (Universe.G * sun.get_mass *
          (sun.get_x_pos - (p.get_x_pos + dt * p.get_x_vel)) / newDistance sun p ^ 3)
        y_vel := p.get_y_vel + dt * (Universe.G * sun.get_mass *
          (sun.get_y_pos - (p.get_y_pos + dt * p.get_y_vel)) / newDistance sun p ^ 3) } := by
  have h3 : newDistance sun p ^ 3 ≠ 0 := pow_ne_zero 3 h
  unfold movePlanetStep
  simp only [Planet.move_to, Planet.get_x_pos, Planet.get_y_pos, Planet.get_x_vel,
    Planet.get_y_vel, Planet.set_x_vel, Planet.set_y_vel]
  rw [if_neg (by simpa [newDistance, Planet.get_x_pos, Planet.get_y_pos,
    Planet.get_x_vel, Planet.get_y_vel] using h3)]
  simp [newDistance, Planet.get_x_pos, Planet.get_y_pos, Planet.get_x_vel, Planet.get_y_vel]

/-- When the planet's post-update position coincides with the sun's position,
`movePlanetStep` raises `ZeroDivisionError`, the position update having
already happened and the velocity left untouched. -/
theorem movePlanetStep_eq_zde (sun : Sun) (p : Planet) (h : newDistance sun p = 0) :
    movePlanetStep (some sun) p = .exn "ZeroDivisionError"
      (p.move_to (p.get_x_pos + dt * p.get_x_vel) (p.get_y_pos + dt * p.get_y_vel)) := by
  unfold movePlanetStep
  simp only [Planet.move_to, Planet.get_x_pos, Planet.get_y_pos, Planet.get_x_vel,
    Planet.get_y_vel]
  rw [if_pos (by
    have : newDistance sun p ^ 3 = 0 := by rw [h]; ring
    simpa [newDistance, Planet.get_x_pos, Planet.get_y_pos,
      Planet.get_x_vel, Planet.get_y_vel] using this)]

/-- With `the_sun = None`, the loop body first applies the position update
in place and only then hits the `None` dereference on line 138, raising
`AttributeError`: the moved planet is the state at raise time. -/
theorem movePlanetStep_none (p : Planet) :
    movePlanetStep none p = .exn "AttributeError"
      (p.move_to (p.get_x_pos + dt * p.get_x_vel) (p.get_y_pos + dt * p.get_y_vel)) := rfl

/-- With a sun present, the per-planet loop body either succeeds or raises
`ZeroDivisionError`; no other exception can occur. -/
theorem movePlanetStep_some_cases (sun : Sun) (p : Planet) :
    (∃ p1, movePlanetStep (some sun) p = .ok p1) ∨
      (∃ p1, movePlanetStep (some sun) p = .exn "ZeroDivisionError" p1) := by
  by_cases h : newDistance sun p = 0
  · exact .inr ⟨_, movePlanetStep_eq_zde sun p h⟩
  · exact .inl ⟨_, movePlanetStep_eq_ok sun p h⟩

/-- When every planet's step succeeds, the loop succeeds and returns exactly
the input list with the per-planet step applied pointwise, in order. -/
theorem movePlanetsList_map (the_sun : Option Sun) (l : List Planet)
    (h : ∀ p ∈ l, ∃ p1, movePlanetStep the_sun p = .ok p1) :
    movePlanetsList the_sun l = .ok (l.map (fun p => (movePlanetStep the_sun p).state)) := by
  induction l with
  | nil => rfl
  | cons a rest ih =>
    obtain ⟨a1, ha⟩ := h a (List.mem_cons_self a rest)
    have hrest := ih (fun p hp => h p (List.mem_cons_of_mem a hp))
    unfold movePlanetsList
    rw [ha, hrest]
    simp [PyResult.state, ha]

/-- The loop body never touches a planet's `name`, `mass`, `radius` or
`color`, whether it completes or raises. -/
theorem movePlanetStep_frame (the_sun : Option Sun) (p : Planet) :
    ((movePlanetStep the_sun p).state).name = p.name ∧
    ((movePlanetStep the_sun p).state).mass = p.mass ∧
    ((movePlanetStep the_sun p).state).radius = p.radius ∧
    ((movePlanetStep the_sun p).state).color = p.color := by
  match the_sun with
  | none => rw [movePlanetStep_none]; simp [PyResult.state, Planet.move_to]
  | some sun =>
    by_cases h : newDistance sun p = 0
    · rw [movePlanetStep_eq_zde sun p h]; simp [PyResult.state, Planet.move_to]
    · rw [movePlanetStep_eq_ok sun p h]; simp [PyResult.state]

/-- The whole loop preserves every planet's `name`, `mass`, `radius` and
`color`, pointwise in order, whether or not an exception aborts it. -/
theorem movePlanetsList_frame (the_sun : Option Sun) (l : List Planet) :
    List.Forall₂ (fun p p1 => p1.name = p.name ∧ p1.mass = p.mass ∧
      p1.radius = p.radius ∧ p1.color = p.color) l ((movePlanetsList the_sun l).state) := by
  induction l with
  | nil => exact List.Forall₂.nil
  | cons a rest ih =>
    have ha := movePlanetStep_frame the_sun a
    unfold movePlanetsList
    cases hstep : movePlanetStep the_sun a with
    | ok a1 =>
      rw [hstep] at ha
      simp only [PyResult.state] at ha
      cases hrest : movePlanetsList the_sun rest with
      | ok r1 =>
        rw [hrest] at ih
        simp only [PyResult.state] at ih ⊢
        exact List.Forall₂.cons ha ih
      | exn e r1 =>
        rw [hrest] at ih
        simp only [PyResult.state] at ih ⊢
        exact List.Forall₂.cons ha ih
    | exn e a1 =>
      rw [hstep] at ha
      simp only [PyResult.state] at ha ⊢
      exact List.Forall₂.cons ha
        (List.forall₂_same.mpr (fun x _ => ⟨rfl, rfl, rfl, rfl⟩))

/-- C9: every call to `move_planets` leaves `the_sun` (hence the sun's
position and mass) unchanged, and leaves every planet's `name`, `mass`,
`radius` and `color` unchanged, pointwise in collection order; only the
planets' positions and velocities are mutated. -/
theorem move_planets_frame (s : SolarSystem) :
    ((s.move_planets).state).the_sun = s.the_sun ∧
    List.Forall₂ (fun p p1 => p1.name = p.name ∧ p1.mass = p.mass ∧
      p1.radius = p.radius ∧ p1.color = p.color)
      s.planets ((s.move_planets).state).planets := by
  have hl := movePlanetsList_frame s.the_sun s.planets
  unfold SolarSystem.move_planets
  cases h : movePlanetsList s.the_sun s.planets with
  | ok l => rw [h] at hl; simp only [PyResult.state] at hl ⊢; exact ⟨trivial, hl⟩
  | exn e l => rw [h] at hl; simp only [PyResult.state] at hl ⊢; exact ⟨trivial, hl⟩

/-- C4 (counterexample): the constructors perform no mass validation, so a
`Sun` of mass -5 and a `Planet` of mass -1 are both constructed successfully,
refuting the claim that no body with non-positive mass is ever created. -/
theorem mass_validation_counterexample :
    (Sun.init "BAD" (-5) 10 10).get_mass = -5 ∧
    ¬ (0 : ℝ) < (Sun.init "BAD" (-5) 10 10).get_mass ∧
    (Planet.init "BADP" 0 (-1) 1 0 0 "gray").get_mass = -1 ∧
    ¬ (0 : ℝ) < (Planet.init "BADP" 0 (-1) 1 0 0 "gray").get_mass := by
  refine ⟨rfl, ?_, rfl, ?_⟩ <;>
    norm_num [Sun.init, Planet.init, Sun.get_mass, Planet.get_mass]

/-- C4 (amended): `Sun.__init__` and `Planet.__init__` accept any mass
value, positive or not, and store it unchanged; no validation or rejection
happens at construction time. -/
theorem init_accepts_any_mass (sname : String) (smass sradius stemperature : ℝ)
    (pname : String) (iv pmass pradius px py : ℝ) (pcolor : String) :
    (Sun.init sname smass sradius stemperature).get_mass = smass ∧
    (Planet.init pname iv pmass pradius px py pcolor).get_mass = pmass :=
  ⟨rfl, rfl⟩

/-- C2 (amended): calling `move_planets` on a system whose primary body has
not been set raises `AttributeError` (an unhandled `None` dereference, not a
descriptive configuration error) whenever the planet list is nonempty — but
only AFTER the first planet's position has already been advanced by
`dt * velocity`; its velocity and all later planets are untouched.  With an
empty planet list the call silently succeeds and changes nothing. -/
theorem move_planets_no_sun (p : Planet) (rest : List Planet) :
    SolarSystem.move_planets { the_sun := none, planets := p :: rest } =
      .exn "AttributeError" { the_sun := none, planets :=
        { p with x_pos := p.get_x_pos + dt * p.get_x_vel,
                 y_pos := p.get_y_pos + dt * p.get_y_vel } :: rest } ∧
    SolarSystem.move_planets { the_sun := none, planets := ([] : List Planet) } =
      .ok { the_sun := none, planets := ([] : List Planet) } := by
  constructor
  · unfold SolarSystem.move_planets movePlanetsList
    rw [movePlanetStep_none]
    simp [Planet.move_to]
  · rfl

/-- C2 (counterexample): with no sun set and the EARTH planet of the example
driver (position (5, 200), velocity (0, 47.5)), `move_planets` raises, yet
the planet's y-position has changed from 200 to 200.0475 — refuting the claim
that the failing call leaves every planet's position unchanged. -/
theorem move_planets_no_sun_counterexample :
    ((SolarSystem.move_planets
        ⟨none, [Planet.init "EARTH" 47.5 1 25 5.0 200.0 "green"]⟩).state).planets.map
      Planet.get_y_pos = [200.0475] ∧
    [Planet.init "EARTH" 47.5 1 25 5.0 200.0 "green"].map Planet.get_y_pos = [(200.0 : ℝ)] ∧
    (200.0475 : ℝ) ≠ 200.0 := by
  refine ⟨?_, by simp [Planet.init, Planet.get_y_pos], by norm_num⟩
  unfold SolarSystem.move_planets movePlanetsList
  rw [movePlanetStep_none]
  simp [PyResult.state, Planet.move_to, Planet.init, Planet.get_y_pos, Planet.get_x_pos,
    Planet.get_x_vel, Planet.get_y_vel]
  norm_num [dt]

/-- One step of the loop body sends position-and-velocity-equal planets to
position-and-velocity-equal results with the same outcome: the planet's own
mass never enters the computation (the acceleration is mass-independent). -/
theorem movePlanetStep_samePV (the_sun : Option Sun) (p q : Planet) (h : samePV p q) :
    samePVR (movePlanetStep the_sun p) (movePlanetStep the_sun q) := by
  obtain ⟨hx, hy, hvx, hvy⟩ := h
  simp only [Planet.get_x_pos, Planet.get_y_pos, Planet.get_x_vel, Planet.get_y_vel]
    at hx hy hvx hvy
  match the_sun with
  | none =>
    rw [movePlanetStep_none, movePlanetStep_none]
    exact ⟨rfl, by simp [samePV, Planet.move_to, Planet.get_x_pos, Planet.get_y_pos,
      Planet.get_x_vel, Planet.get_y_vel, hx, hy, hvx, hvy]⟩
  | some sun =>
    have hnd : newDistance sun p = newDistance sun q := by
      simp only [newDistance, Planet.get_x_pos, Planet.get_y_pos, Planet.get_x_vel,
        Planet.get_y_vel, hx, hy, hvx, hvy]
    by_cases h0 : newDistance sun p = 0
    · rw [movePlanetStep_eq_zde sun p h0,
        movePlanetStep_eq_zde sun q (by rw [← hnd]; exact h0)]
      exact ⟨rfl, by simp [samePV, Planet.move_to, Planet.get_x_pos, Planet.get_y_pos,
        Planet.get_x_vel, Planet.get_y_vel, hx, hy, hvx, hvy]⟩
    · rw [movePlanetStep_eq_ok sun p h0,
        movePlanetStep_eq_ok sun q (by rw [← hnd]; exact h0)]
      simp [samePVR, samePV, Planet.get_x_pos, Planet.get_y_pos, Planet.get_x_vel,
        Planet.get_y_vel, hx, hy, hvx, hvy, hnd]

/-- C5: two planets with identical initial position and velocity but
different masses, orbiting the same primary body, have identical
position/velocity trajectories across any number `n` of ticks (the
acceleration computed by `move_planets` never uses the planet's mass). -/
theorem trajectory_mass_independent (the_sun : Option Sun) (n : ℕ) (p q : Planet)
    (h : samePV p q) :
    samePVR (planetTicksN the_sun n p) (planetTicksN the_sun n q) := by
  induction n generalizing p q with
  | zero => exact h
  | succ n ih =>
    have hs := movePlanetStep_samePV the_sun p q h
    unfold planetTicksN
    cases hp : movePlanetStep the_sun p with
    | ok p1 =>
      cases hq : movePlanetStep the_sun q with
      | ok q1 =>
        rw [hp, hq] at hs
        exact ih p1 q1 hs
      | exn f q1 => rw [hp, hq] at hs; simp [samePVR] at hs
    | exn e p1 =>
      cases hq : movePlanetStep the_sun q with
      | ok q1 => rw [hp, hq] at hs; simp [samePVR] at hs
      | exn f q1 => rw [hp, hq] at hs; exact hs

/-- C5 witness: the EARTH planet of the example driver next to a copy that is
1000 times heavier; both start at (5, 200) with velocity (0, 47.5) and have
identical trajectories across 3 ticks. -/
theorem trajectory_mass_independent_witness :
    samePV (Planet.init "EARTH" 47.5 1 25 5.0 200.0 "green")
      (Planet.init "HEAVY" 47.5 1000 25 5.0 200.0 "blue") ∧
    samePVR
      (planetTicksN (some (Sun.init "SOL" 5000 10000000 5800)) 3
        (Planet.init "EARTH" 47.5 1 25 5.0 200.0 "green"))
      (planetTicksN (some (Sun.init "SOL" 5000 10000000 5800)) 3
        (Planet.init "HEAVY" 47.5 1000 25 5.0 200.0 "blue")) :=
  ⟨⟨rfl, rfl, rfl, rfl⟩,
    trajectory_mass_independent (some (Sun.init "SOL" 5000 10000000 5800)) 3
      (Planet.init "EARTH" 47.5 1 25 5.0 200.0 "green")
      (Planet.init "HEAVY" 47.5 1000 25 5.0 200.0 "blue") ⟨rfl, rfl, rfl, rfl⟩⟩

/-- C10: a planet sitting exactly at the primary body's position whose
velocity is nonzero is updated successfully: the position update runs before
the distance is computed, so the distance in the acceleration denominator is
nonzero for the tick and `move_planets` on that planet returns normally with
finite (real) position and velocity. -/
theorem at_sun_nonzero_velocity_ok (sun : Sun) (p : Planet)
    (hx : p.get_x_pos = sun.get_x_pos) (hy : p.get_y_pos = sun.get_y_pos)
    (hv : p.get_x_vel ≠ 0 ∨ p.get_y_vel ≠ 0) :
    ∃ p1, movePlanetStep (some sun) p = .ok p1 ∧
      SolarSystem.move_planets ⟨some sun, [p]⟩ = .ok ⟨some sun, [p1]⟩ := by
  have hnd : newDistance sun p ≠ 0 := by
    unfold newDistance
    rw [Real.sqrt_ne_zero']
    rw [hx, hy]
    have e1 : sun.get_x_pos - (sun.get_x_pos + dt * p.get_x_vel) = -(dt * p.get_x_vel) := by
      ring
    have e2 : sun.get_y_pos - (sun.get_y_pos + dt * p.get_y_vel) = -(dt * p.get_y_vel) := by
      ring
    rw [e1, e2]
    have hdt : dt ≠ 0 := by norm_num [dt]
    rcases hv with h | h
    · have h1 : 0 < (-(dt * p.get_x_vel)) ^ 2 :=
        (sq_nonneg _).lt_of_ne (Ne.symm (pow_ne_zero 2 (neg_ne_zero.mpr (mul_ne_zero hdt h))))
      exact add_pos_of_pos_of_nonneg h1 (sq_nonneg _)
    · have h1 : 0 < (-(dt * p.get_y_vel)) ^ 2 :=
        (sq_nonneg _).lt_of_ne (Ne.symm (pow_ne_zero 2 (neg_ne_zero.mpr (mul_ne_zero hdt h))))
      exact add_pos_of_nonneg_of_pos (sq_nonneg _) h1
  refine ⟨_, movePlanetStep_eq_ok sun p hnd, ?_⟩
  unfold SolarSystem.move_planets movePlanetsList
  rw [movePlanetStep_eq_ok sun p hnd]
  rfl

/-- C10 witness: a planet at the origin, exactly on top of a sun at the
origin, with velocity (0, 47.5), is advanced without error. -/
theorem at_sun_nonzero_velocity_ok_witness :
    (Planet.init "X" 47.5 1 1 0 0 "green").get_x_pos =
        (Sun.init "SOL" 5000 10000000 5800).get_x_pos ∧
    (Planet.init "X" 47.5 1 1 0 0 "green").get_y_pos =
        (Sun.init "SOL" 5000 10000000 5800).get_y_pos ∧
    ((Planet.init "X" 47.5 1 1 0 0 "green").get_x_vel ≠ 0 ∨
      (Planet.init "X" 47.5 1 1 0 0 "green").get_y_vel ≠ 0) ∧
    ∃ p1, movePlanetStep (some (Sun.init "SOL" 5000 10000000 5800))
        (Planet.init "X" 47.5 1 1 0 0 "green") = .ok p1 ∧
      SolarSystem.move_planets ⟨some (Sun.init "SOL" 5000 10000000 5800),
        [Planet.init "X" 47.5 1 1 0 0 "green"]⟩ =
      .ok ⟨some (Sun.init "SOL" 5000 10000000 5800), [p1]⟩ :=
  ⟨by norm_num [Planet.init, Sun.init, Planet.get_x_pos, Sun.get_x_pos],
   by norm_num [Planet.init, Sun.init, Planet.get_y_pos, Sun.get_y_pos],
   Or.inr (by norm_num [Planet.init, Planet.get_y_vel]),
   at_sun_nonzero_velocity_ok (Sun.init "SOL" 5000 10000000 5800)
     (Planet.init "X" 47.5 1 1 0 0 "green")
     (by norm_num [Planet.init, Sun.init, Planet.get_x_pos, Sun.get_x_pos])
     (by norm_num [Planet.init, Sun.init, Planet.get_y_pos, Sun.get_y_pos])
     (Or.inr (by norm_num [Planet.init, Planet.get_y_vel]))⟩

/-- C3: if any planet's position after the position update coincides exactly
with the sun's position (post-update distance zero), `move_planets` raises
`ZeroDivisionError` — the acceleration division is never performed, so no
infinite or NaN acceleration, position or velocity is produced. -/
theorem zero_distance_raises (s : SolarSystem) (sun : Sun) (p : Planet)
    (hsun : s.the_sun = some sun) (hp : p ∈ s.planets) (h0 : newDistance sun p = 0) :
    ∃ s1, s.move_planets = .exn "ZeroDivisionError" s1 := by
  have key : ∀ l : List Planet, p ∈ l →
      ∃ l1, movePlanetsList (some sun) l = .exn "ZeroDivisionError" l1 := by
    intro l
    induction l with
    | nil => intro hl; cases hl
    | cons a rest ih =>
      intro hl
      rcases List.mem_cons.mp hl with rfl | hmem
      · exact ⟨_, by unfold movePlanetsList; rw [movePlanetStep_eq_zde sun p h0]⟩
      · rcases movePlanetStep_some_cases sun a with ⟨a1, ha⟩ | ⟨a1, ha⟩
        · obtain ⟨l1, hrec⟩ := ih hmem
          exact ⟨a1 :: l1, by unfold movePlanetsList; rw [ha, hrec]⟩
        · exact ⟨a1 :: rest, by unfold movePlanetsList; rw [ha]⟩
  obtain ⟨l1, hl1⟩ := key s.planets hp
  refine ⟨{ s with planets := l1 }, ?_⟩
  unfold SolarSystem.move_planets
  rw [hsun, hl1]

/-- C3 witness: a motionless planet placed exactly at the sun's position
makes `move_planets` raise `ZeroDivisionError`. -/
theorem zero_distance_raises_witness :
    (SolarSystem.the_sun ⟨some (Sun.init "SOL" 5000 10000000 5800),
        [Planet.init "X" 0 1 1 0 0 "gray"]⟩ = some (Sun.init "SOL" 5000 10000000 5800)) ∧
    (Planet.init "X" 0 1 1 0 0 "gray" ∈ SolarSystem.planets
      ⟨some (Sun.init "SOL" 5000 10000000 5800), [Planet.init "X" 0 1 1 0 0 "gray"]⟩) ∧
    newDistance (Sun.init "SOL" 5000 10000000 5800) (Planet.init "X" 0 1 1 0 0 "gray") = 0 ∧
    ∃ s1, SolarSystem.move_planets ⟨some (Sun.init "SOL" 5000 10000000 5800),
      [Planet.init "X" 0 1 1 0 0 "gray"]⟩ = .exn "ZeroDivisionError" s1 :=
  ⟨rfl, List.mem_singleton.mpr rfl,
   by
    unfold newDistance
    norm_num [Planet.init, Sun.init, Planet.get_x_pos, Planet.get_y_pos,
      Planet.get_x_vel, Planet.get_y_vel, Sun.get_x_pos, Sun.get_y_pos, dt,
      Real.sqrt_zero],
   zero_distance_raises
     ⟨some (Sun.init "SOL" 5000 10000000 5800), [Planet.init "X" 0 1 1 0 0 "gray"]⟩
     (Sun.init "SOL" 5000 10000000 5800) (Planet.init "X" 0 1 1 0 0 "gray")
     rfl (List.mem_singleton.mpr rfl)
     (by
      unfold newDistance
      norm_num [Planet.init, Sun.init, Planet.get_x_pos, Planet.get_y_pos,
        Planet.get_x_vel, Planet.get_y_vel, Sun.get_x_pos, Sun.get_y_pos, dt,
        Real.sqrt_zero])⟩

/-- C1: with the primary body of mass M at the origin and every planet's
post-update distance nonzero, one call to `move_planets` (with its fixed
`dt = 0.001`) maps each planet, in order, to: new position
`old position + dt * old velocity`, then velocity incremented by
`dt * G * M * dx / r^3` componentwise, where `dx` is the sun's position
minus the NEW planet position and `r` the Euclidean distance from the new
position to the sun. -/
theorem move_planets_single_step (s : SolarSystem) (sun : Sun)
    (hsun : s.the_sun = some sun) (hx0 : sun.get_x_pos = 0) (hy0 : sun.get_y_pos = 0)
    (hnd : ∀ p ∈ s.planets, newDistance sun p ≠ 0) :
    s.move_planets = .ok ⟨some sun, s.planets.map (fun p =>
      { p with
        x_pos := p.get_x_pos + dt * p.get_x_vel
        y_pos := p.get_y_pos + dt * p.get_y_vel
        x_vel := p.get_x_vel + dt * (Universe.G * sun.get_mass *
          (sun.get_x_pos - (p.get_x_pos + dt * p.get_x_vel)) / newDistance sun p ^ 3)
        y_vel := p.get_y_vel + dt * (Universe.G * sun.get_mass *
          (sun.get_y_pos - (p.get_y_pos + dt * p.get_y_vel)) / newDistance sun p ^ 3) })⟩ := by
  obtain ⟨ts, pl⟩ := s
  simp only at hsun hnd
  subst hsun
  have hok : ∀ p ∈ pl, ∃ p1, movePlanetStep (some sun) p = .ok p1 :=
    fun p hp => ⟨_, movePlanetStep_eq_ok sun p (hnd p hp)⟩
  have hmap := movePlanetsList_map (some sun) pl hok
  unfold SolarSystem.move_planets
  simp only
  simp only [hmap]
  congr 2
  exact List.map_congr_left (fun p hp => by
    rw [movePlanetStep_eq_ok sun p (hnd p hp)]; rfl)

/-- C1 witness: the spec's single-step numeric configuration — sun of mass
5000 at the origin, planet at (5, 200) with velocity (0, 47.5) — satisfies
the hypotheses of `move_planets_single_step`, which then gives the updated
position (5, 200.0475) and the acceleration formula for the velocity. -/
theorem move_planets_single_step_witness :
    (SolarSystem.the_sun ⟨some (Sun.init "SOL" 5000 10000000 5800),
        [Planet.init "EARTH" 47.5 1 25 5.0 200.0 "green"]⟩ =
      some (Sun.init "SOL" 5000 10000000 5800)) ∧
    (Sun.init "SOL" 5000 10000000 5800).get_x_pos = 0 ∧
    (Sun.init "SOL" 5000 10000000 5800).get_y_pos = 0 ∧
    (∀ p ∈ SolarSystem.planets ⟨some (Sun.init "SOL" 5000 10000000 5800),
        [Planet.init "EARTH" 47.5 1 25 5.0 200.0 "green"]⟩,
      newDistance (Sun.init "SOL" 5000 10000000 5800) p ≠ 0) ∧
    SolarSystem.move_planets ⟨some (Sun.init "SOL" 5000 10000000 5800),
        [Planet.init "EARTH" 47.5 1 25 5.0 200.0 "green"]⟩ =
      .ok ⟨some (Sun.init "SOL" 5000 10000000 5800),
        (SolarSystem.planets ⟨some (Sun.init "SOL" 5000 10000000 5800),
          [Planet.init "EARTH" 47.5 1 25 5.0 200.0 "green"]⟩).map (fun p =>
        { p with
          x_pos := p.get_x_pos + dt * p.get_x_vel
          y_pos := p.get_y_pos + dt * p.get_y_vel
          x_vel := p.get_x_vel + dt * (Universe.G * (Sun.init "SOL" 5000 10000000 5800).get_mass *
            ((Sun.init "SOL" 5000 10000000 5800).get_x_pos - (p.get_x_pos + dt * p.get_x_vel)) /
              newDistance (Sun.init "SOL" 5000 10000000 5800) p ^ 3)
          y_vel := p.get_y_vel + dt * (Universe.G * (Sun.init "SOL" 5000 10000000 5800).get_mass *
            ((Sun.init "SOL" 5000 10000000 5800).get_y_pos - (p.get_y_pos + dt * p.get_y_vel)) /
              newDistance (Sun.init "SOL" 5000 10000000 5800) p ^ 3) })⟩ := by
  have hnd : ∀ p ∈ SolarSystem.planets ⟨some (Sun.init "SOL" 5000 10000000 5800),
      [Planet.init "EARTH" 47.5 1 25 5.0 200.0 "green"]⟩,
      newDistance (Sun.init "SOL" 5000 10000000 5800) p ≠ 0 := by
    intro p hp
    simp only [SolarSystem.planets, List.mem_singleton] at hp
    subst hp
    unfold newDistance
    rw [Real.sqrt_ne_zero']
    norm_num [Planet.init, Sun.init, Planet.get_x_pos, Planet.get_y_pos,
      Planet.get_x_vel, Planet.get_y_vel, Sun.get_x_pos, Sun.get_y_pos, dt]
  exact ⟨rfl, by norm_num [Sun.init, Sun.get_x_pos], by norm_num [Sun.init, Sun.get_y_pos],
    hnd,
    move_planets_single_step
      ⟨some (Sun.init "SOL" 5000 10000000 5800),
        [Planet.init "EARTH" 47.5 1 25 5.0 200.0 "green"]⟩
      (Sun.init "SOL" 5000 10000000 5800) rfl
      (by norm_num [Sun.init, Sun.get_x_pos]) (by norm_num [Sun.init, Sun.get_y_pos]) hnd⟩

/-- C7: the per-planet update is independent of the other planets and of the
update order: for any permutation of the planet list (all steps succeeding),
`move_planets` sends EACH planet `p` to the same result
`(movePlanetStep the_sun p).state` in both orders, and the two output lists
are the corresponding permutation of one another. -/
theorem move_planets_perm (the_sun : Option Sun) (l l1 : List Planet)
    (hperm : l.Perm l1) (hok : ∀ p ∈ l, ∃ p2, movePlanetStep the_sun p = .ok p2) :
    SolarSystem.move_planets ⟨the_sun, l⟩ =
      .ok ⟨the_sun, l.map (fun p => (movePlanetStep the_sun p).state)⟩ ∧
    SolarSystem.move_planets ⟨the_sun, l1⟩ =
      .ok ⟨the_sun, l1.map (fun p => (movePlanetStep the_sun p).state)⟩ ∧
    (l.map (fun p => (movePlanetStep the_sun p).state)).Perm
      (l1.map (fun p => (movePlanetStep the_sun p).state)) := by
  have hok1 : ∀ p ∈ l1, ∃ p2, movePlanetStep the_sun p = .ok p2 :=
    fun p hp => hok p (hperm.mem_iff.mpr hp)
  refine ⟨?_, ?_, hperm.map _⟩
  · unfold SolarSystem.move_planets
    simp only
    rw [movePlanetsList_map the_sun l hok]
  · unfold SolarSystem.move_planets
    simp only
    rw [movePlanetsList_map the_sun l1 hok1]

/-- C7 witness: the example driver's EARTH and MARS in both orders around the
SOL sun; both planets' steps succeed and the update is order-independent. -/
theorem move_planets_perm_witness :
    ([Planet.init "EARTH" 47.5 1 25 5.0 200.0 "green",
      Planet.init "MARS" 40.5 0.1 62 10.0 125.0 "red"].Perm
     [Planet.init "MARS" 40.5 0.1 62 10.0 125.0 "red",
      Planet.init "EARTH" 47.5 1 25 5.0 200.0 "green"]) ∧
    (∀ p ∈ [Planet.init "EARTH" 47.5 1 25 5.0 200.0 "green",
        Planet.init "MARS" 40.5 0.1 62 10.0 125.0 "red"],
      ∃ p2, movePlanetStep (some (Sun.init "SOL" 5000 10000000 5800)) p = .ok p2) ∧
    (([Planet.init "EARTH" 47.5 1 25 5.0 200.0 "green",
        Planet.init "MARS" 40.5 0.1 62 10.0 125.0 "red"].map
       (fun p => (movePlanetStep (some (Sun.init "SOL" 5000 10000000 5800)) p).state)).Perm
     ([Planet.init "MARS" 40.5 0.1 62 10.0 125.0 "red",
        Planet.init "EARTH" 47.5 1 25 5.0 200.0 "green"].map
       (fun p => (movePlanetStep (some (Sun.init "SOL" 5000 10000000 5800)) p).state))) := by
  have hperm : [Planet.init "EARTH" 47.5 1 25 5.0 200.0 "green",
      Planet.init "MARS" 40.5 0.1 62 10.0 125.0 "red"].Perm
      [Planet.init "MARS" 40.5 0.1 62 10.0 125.0 "red",
        Planet.init "EARTH" 47.5 1 25 5.0 200.0 "green"] :=
    List.Perm.swap (Planet.init "MARS" 40.5 0.1 62 10.0 125.0 "red")
      (Planet.init "EARTH" 47.5 1 25 5.0 200.0 "green") []
  have hok : ∀ p ∈ [Planet.init "EARTH" 47.5 1 25 5.0 200.0 "green",
      Planet.init "MARS" 40.5 0.1 62 10.0 125.0 "red"],
      ∃ p2, movePlanetStep (some (Sun.init "SOL" 5000 10000000 5800)) p = .ok p2 := by
    intro p hp
    have hcases := List.mem_cons.mp hp
    rcases hcases with h1 | h2
    · subst h1
      refine ⟨_, movePlanetStep_eq_ok _ _ ?_⟩
      unfold newDistance
      rw [Real.sqrt_ne_zero']
      norm_num [Planet.init, Sun.init, Planet.get_x_pos, Planet.get_y_pos,
        Planet.get_x_vel, Planet.get_y_vel, Sun.get_x_pos, Sun.get_y_pos, dt]
    · have h1 := List.mem_singleton.mp h2
      subst h1
      refine ⟨_, movePlanetStep_eq_ok _ _ ?_⟩
      unfold newDistance
      rw [Real.sqrt_ne_zero']
      norm_num [Planet.init, Sun.init, Planet.get_x_pos, Planet.get_y_pos,
        Planet.get_x_vel, Planet.get_y_vel, Sun.get_x_pos, Sun.get_y_pos, dt]
  exact ⟨hperm, hok,
    (move_planets_perm (some (Sun.init "SOL" 5000 10000000 5800)) _ _ hperm hok).2.2⟩

/-- C6: the simulation is a deterministic function of its inputs: two
simulations with identical initial conditions and iteration count produce
identical runs (final state and full report line sequence) and identical
per-tick state sequences; no randomness enters the computation (the module
imports the random facility but never uses it). -/
theorem run_deterministic (fmt : ℝ → String) (a b : Simulation) (h : a = b) :
    a.run fmt = b.run fmt ∧
    specTickStates a.iterations a.solar_system =
      specTickStates b.iterations b.solar_system := by
  rw [h]
  exact ⟨rfl, rfl⟩

/-- C6 witness: two identical two-iteration simulations of the empty system
produce identical output. -/
theorem run_deterministic_witness :
    (Simulation.init SolarSystem.init 500 500 2 = Simulation.init SolarSystem.init 500 500 2) ∧
    ((Simulation.init SolarSystem.init 500 500 2).run (fun _ => "") =
        (Simulation.init SolarSystem.init 500 500 2).run (fun _ => "") ∧
      specTickStates (Simulation.init SolarSystem.init 500 500 2).iterations
          (Simulation.init SolarSystem.init 500 500 2).solar_system =
        specTickStates (Simulation.init SolarSystem.init 500 500 2).iterations
          (Simulation.init SolarSystem.init 500 500 2).solar_system) :=
  ⟨rfl, run_deterministic (fun _ => "") (Simulation.init SolarSystem.init 500 500 2)
    (Simulation.init SolarSystem.init 500 500 2) rfl⟩

/-- A successful print loop emits exactly the spec's per-tick report block:
one line per planet in collection order, with the planet's name, current
position and current Euclidean distance from the primary body. -/
theorem printLines_ok_eq (fmt : ℝ → String) (s : SolarSystem) (lines : List String)
    (h : printLines fmt s = .ok lines) : lines = specTickReport fmt s := by
  unfold printLines at h
  unfold specTickReport
  cases hs : s.the_sun with
  | some sun =>
    rw [hs] at h
    cases h
    simp [Planet.reportLine, Planet.distance_from_sun, Planet.get_x_pos, Planet.get_y_pos]
  | none =>
    rw [hs] at h
    cases hpl : s.planets with
    | nil => rw [hpl] at h; cases h; rfl
    | cons a rest => rw [hpl] at h; cases h

/-- The driver loop, started anywhere: a successful run of `n` iterations
performs exactly `n` successful `move_planets` calls, and its output is the
concatenation, tick by tick, of one report line per planet in collection
order; the final state is the last tick's state. -/
theorem runFrom_reports (fmt : ℝ → String) (n : ℕ) :
    ∀ (s sf : SolarSystem) (lines : List String),
    Simulation.runFrom fmt n s = .ok (sf, lines) →
    ∃ sts : List SolarSystem,
      specTickStates n s = some sts ∧
      sts.length = n ∧
      lines = (sts.map (specTickReport fmt)).flatten ∧
      sf = sts.getLastD s := by
  induction n with
  | zero =>
    intro s sf lines h
    unfold Simulation.runFrom at h
    cases h
    exact ⟨[], rfl, rfl, rfl, rfl⟩
  | succ n ih =>
    intro s sf lines h
    unfold Simulation.runFrom at h
    cases hmv : s.move_planets with
    | exn e s1 => simp only [hmv] at h; cases h
    | ok s1 =>
      simp only [hmv] at h
      cases hpl : printLines fmt s1 with
      | exn e l0 => simp only [hpl] at h; cases h
      | ok tlines =>
        simp only [hpl] at h
        cases hrec : Simulation.runFrom fmt n s1 with
        | exn e pr =>
          obtain ⟨sf0, rest⟩ := pr
          simp only [hrec] at h
          cases h
        | ok pr =>
          obtain ⟨sf0, rest⟩ := pr
          simp only [hrec] at h
          cases h
          obtain ⟨sts, h1, h2, h3, h4⟩ := ih s1 sf rest hrec
          refine ⟨s1 :: sts, ?_, ?_, ?_, ?_⟩
          · unfold specTickStates
            simp [hmv, h1]
          · simp [h2]
          · simp only [List.map_cons, List.flatten_cons]
            rw [printLines_ok_eq fmt s1 tlines hpl, h3]
          · rw [h4]
            exact (List.getLastD_cons s s1 sts).symm

/-- C8: a successful `Simulation.run` invokes `move_planets` exactly
`iterations` times, and after each tick emits exactly one report line per
planet in collection order, formatted
`<name>: x=<x>, y=<y>, distance=<distance>` (the two-decimal rendering
abstracted as `fmt`), where `distance` is the planet's current Euclidean
distance from the primary body; the run's output is the tick-by-tick
concatenation of these blocks. -/
theorem run_reports (fmt : ℝ → String) (sim : Simulation) (sf : SolarSystem)
    (lines : List String) (h : sim.run fmt = .ok (sf, lines)) :
    ∃ sts : List SolarSystem,
      specTickStates sim.iterations sim.solar_system = some sts ∧
      sts.length = sim.iterations ∧
      lines = (sts.map (specTickReport fmt)).flatten ∧
      sf = sts.getLastD sim.solar_system :=
  runFrom_reports fmt sim.iterations sim.solar_system sf lines h

/-- C8 witness: a one-iteration run of a system with a sun and no planets
completes, and the theorem yields its (empty) report. -/
theorem run_reports_witness :
    (Simulation.init ⟨some (Sun.init "SOL" 5000 10000000 5800), []⟩ 500 500 1).run
        (fun _ => "") =
      .ok (⟨some (Sun.init "SOL" 5000 10000000 5800), []⟩, []) ∧
    ∃ sts : List SolarSystem,
      specTickStates
          (Simulation.init ⟨some (Sun.init "SOL" 5000 10000000 5800), []⟩ 500 500 1).iterations
          (Simulation.init ⟨some (Sun.init "SOL" 5000 10000000 5800), []⟩ 500 500 1).solar_system
        = some sts ∧
      sts.length =
        (Simulation.init ⟨some (Sun.init "SOL" 5000 10000000 5800), []⟩ 500 500 1).iterations ∧
      ([] : List String) = (sts.map (specTickReport (fun _ => ""))).flatten ∧
      SolarSystem.mk (some (Sun.init "SOL" 5000 10000000 5800)) [] =
        sts.getLastD
          (Simulation.init ⟨some (Sun.init "SOL" 5000 10000000 5800), []⟩ 500 500 1).solar_system :=
  ⟨rfl, run_reports (fun _ => "")
    (Simulation.init ⟨some (Sun.init "SOL" 5000 10000000 5800), []⟩ 500 500 1)
    ⟨some (Sun.init "SOL" 5000 10000000 5800), []⟩ [] rfl⟩
